import Mathlib

/-!
Verification of `nextcloud-deck-cli.py`: a shallow embedding of the
normalization pipeline (stacks/cards → grouped model), the due-date parser and
formatter, the four output renderers and the pre-flight configuration check of
`main`, together with theorems settling the specification's claims.

Conventions of the embedding:
* Python `None` becomes `Option.none`; a dictionary field that may be missing
  becomes an `Option` field.
* machine-precision floats of the date arithmetic become exact rationals `ℚ`;
* code that can raise an exception returns an `Option` (`none` = raised);
* external collaborators (the `dateutil` parser, `datetime` string formatting,
  the HTTP fetch) are passed in as function parameters.
-/

/-- A Python `datetime` value as the program uses it: `utc` is the instant's
absolute timestamp in seconds (for a naive datetime, the wall-clock fields
read as UTC, which is exactly how the program treats them), `tzinfo` is the
attached UTC offset in seconds, or `none` for a naive datetime. -/
structure PyDatetime where
  utc : ℚ
  tzinfo : Option Int
deriving DecidableEq, Repr

/-- Python `int(x)` on a rational: truncation toward zero. -/
def pyInt (q : ℚ) : Int := Int.tdiv q.num q.den

/-- `math.floor` on a rational (the denominator is positive, so Euclidean
division of the numerator by the denominator is the floor). -/
def ratFloor (q : ℚ) : Int := Int.ediv q.num q.den

/-- `math.ceil` on a rational. -/
def ratCeil (q : ℚ) : Int := -ratFloor (-q)

/-- Python `abs` on a rational (an executable form of `|·|`, see
`ratAbs_eq_abs`). -/
def ratAbs (q : ℚ) : ℚ := if q < 0 then -q else q

theorem ratAbs_eq_abs (q : ℚ) : ratAbs q = |q| := by
  unfold ratAbs
  by_cases h : q < 0
  · rw [if_pos h, abs_of_neg h]
  · rw [if_neg h, abs_of_nonneg (le_of_not_lt h)]

/-- Lines 112–132 of `format_duedate`: the `relative` style, as a function of
`diff = (dt - now).total_seconds()` (in seconds). -/
def relative_duedate (diff : ℚ) : String :=
  let days : ℚ := diff / 86400
  if ratAbs days < 1 then
    let hours : ℚ := diff / 3600
    if hours > 0 then
      let h := pyInt hours
      s!"in {h} hour(s)"
    else
      let h := pyInt (ratAbs hours)
      s!"{h}hour(s) ago"
  else if days > 365 then
    let n := ratCeil (days / 365)
    s!"in {n} year(s)"
  else if days > 30 then
    let n := ratCeil (days / 30)
    s!"in {n} month(s)"
  else if days > 0 then
    let n := ratCeil days
    s!"in {n} days"
  else if days < -365 then
    let n := (ratCeil (days / 365)).natAbs
    s!"{n} year(s) ago"
  else if days < -30 then
    let n := (ratCeil (days / 30)).natAbs
    s!"{n} month(s) ago"
  else
    let n := (ratFloor days).natAbs
    s!"{n} days ago"

theorem ratFloor_eq_floor (q : ℚ) : ratFloor q = ⌊q⌋ := by
  rw [Rat.floor_def]; rfl

theorem ratCeil_eq_ceil (q : ℚ) : ratCeil q = ⌈q⌉ := by
  unfold ratCeil
  rw [ratFloor_eq_floor, Int.floor_neg, neg_neg]

theorem pyInt_eq_floor_of_nonneg (q : ℚ) (h : 0 ≤ q) : pyInt q = ⌊q⌋ := by
  rw [← ratFloor_eq_floor]
  unfold pyInt ratFloor
  rw [Int.tdiv_eq_ediv (by exact Rat.num_nonneg.mpr h) (by positivity)]
  rfl

/-- `format_duedate` (lines 101–133).  The `iso` and `local` styles delegate to
Python's `datetime.isoformat` / `strftime`, which are external; they are passed
in as `isoStr` and `localStr` (`localStr` covers both arms of the `try/except`
at lines 108–111, each of which is an external `strftime`).  `now` is the
current instant's timestamp (line 104). -/
def format_duedate (isoStr localStr : PyDatetime → String) (now : ℚ)
    (dt : Option PyDatetime) (style : String) : String :=
  match dt with
  | none => ""
  | some d =>
    if style = "iso" then isoStr d
    else if style = "local" then localStr d
    else if style = "relative" then relative_duedate (d.utc - now)
    else isoStr d

/-- Selecting the `relative` style at line 112. -/
theorem format_duedate_relative (isoStr localStr : PyDatetime → String)
    (now : ℚ) (d : PyDatetime) :
    format_duedate isoStr localStr now (some d) "relative"
      = relative_duedate (d.utc - now) := rfl

/-- Branch of lines 115–118: within a day, future. -/
theorem relative_duedate_in_hours (diff : ℚ)
    (h1 : ratAbs (diff / 86400) < 1) (h2 : diff / 3600 > 0) :
    relative_duedate diff = s!"in {pyInt (diff / 3600)} hour(s)" := by
  simp only [relative_duedate]
  rw [if_pos h1, if_pos h2]

/-- Branch of lines 115–120: within a day, non-positive difference. -/
theorem relative_duedate_hours_ago (diff : ℚ)
    (h1 : ratAbs (diff / 86400) < 1) (h2 : ¬(diff / 3600 > 0)) :
    relative_duedate diff = s!"{pyInt (ratAbs (diff / 3600))}hour(s) ago" := by
  simp only [relative_duedate]
  rw [if_pos h1, if_neg h2]

/-- Branch of lines 127–128: more than 365 days in the past. -/
theorem relative_duedate_years_ago (diff : ℚ)
    (h1 : ¬ratAbs (diff / 86400) < 1) (h2 : diff / 86400 < -365) :
    relative_duedate diff
      = s!"{(ratCeil (diff / 86400 / 365)).natAbs} year(s) ago" := by
  have hd : diff / 86400 < 0 := lt_trans h2 (by norm_num)
  simp only [relative_duedate]
  rw [if_neg h1, if_neg (by linarith), if_neg (by linarith), if_neg (by linarith),
    if_pos h2]

/-- Branch of lines 129–130: between 30 and 365 days in the past. -/
theorem relative_duedate_months_ago (diff : ℚ)
    (h1 : ¬ratAbs (diff / 86400) < 1) (h2 : ¬diff / 86400 < -365)
    (h3 : diff / 86400 < -30) :
    relative_duedate diff
      = s!"{(ratCeil (diff / 86400 / 30)).natAbs} month(s) ago" := by
  have hd : diff / 86400 < 0 := lt_trans h3 (by norm_num)
  simp only [relative_duedate]
  rw [if_neg h1, if_neg (by linarith), if_neg (by linarith), if_neg (by linarith),
    if_neg h2, if_pos h3]

/-- For a negative number of days, the code's `abs(math.ceil(days / m))` is the
floor of the positive magnitude `|days| / m`. -/
theorem natAbs_ratCeil_of_neg (days : ℚ) (m : ℚ) (h : days < 0) :
    (ratCeil (days / m)).natAbs = (ratFloor (ratAbs days / m)).natAbs := by
  rw [ratAbs_eq_abs, abs_of_neg h]
  unfold ratCeil
  rw [Int.natAbs_neg, neg_div]

/-- Claim C1, counterexample: for an instant exactly 400 days in the past the
`relative` style produces "1 year(s) ago" (the code computes
`abs(math.ceil(-400/365)) = 1`), not "2 year(s) ago" as the claim's
`ceil(400/365) = 2` would require. -/
theorem C1_counterexample :
    format_duedate (fun _ => "") (fun _ => "") 0
        (some ⟨-34560000, some 0⟩) "relative" = "1 year(s) ago"
    ∧ ("1 year(s) ago" : String) ≠ "2 year(s) ago" := by
  refine ⟨?_, by decide⟩
  have e0 : ((-34560000 : ℚ)) - 0 = -34560000 := by norm_num
  have key : relative_duedate ((-34560000 : ℚ) - 0) = "1 year(s) ago" := by
    rw [e0, relative_duedate_years_ago (-34560000)
      (by rw [ratAbs_eq_abs]; norm_num) (by norm_num)]
    rw [show ratCeil ((-34560000 : ℚ) / 86400 / 365) = -1 from by
      rw [ratCeil_eq_ceil]; norm_num [Int.ceil_eq_iff]]
    rfl
  exact key

/-- Claim C1 (amended): for a timezone-aware instant strictly more than 365
days in the past, the `relative` style returns "{N} year(s) ago" where `N` is
the FLOOR of the positive magnitude of days/365 (the code's
`abs(math.ceil(days/365))` with negative `days` rounds toward zero); for an
instant between 30 and 365 days in the past it returns "{N} month(s) ago" with
`N` the floor of the magnitude of days/30.  In particular an instant exactly
400 days in the past yields "1 year(s) ago". -/
theorem C1_amended_floor_magnitude (isoStr localStr : PyDatetime → String)
    (now : ℚ) (d : PyDatetime) :
    ((d.utc - now) / 86400 < -365 →
      format_duedate isoStr localStr now (some d) "relative"
        = s!"{(ratFloor (ratAbs ((d.utc - now) / 86400) / 365)).natAbs} year(s) ago")
    ∧ (-365 ≤ (d.utc - now) / 86400 → (d.utc - now) / 86400 < -30 →
      format_duedate isoStr localStr now (some d) "relative"
        = s!"{(ratFloor (ratAbs ((d.utc - now) / 86400) / 30)).natAbs} month(s) ago") := by
  constructor
  · intro h
    rw [format_duedate_relative,
      relative_duedate_years_ago _
        (by rw [ratAbs_eq_abs,
          abs_of_neg (show (d.utc - now) / 86400 < 0 by linarith)]
            push_neg
            linarith)
        h,
      natAbs_ratCeil_of_neg _ _ (by linarith)]
  · intro hge hlt
    rw [format_duedate_relative,
      relative_duedate_months_ago _
        (by rw [ratAbs_eq_abs,
          abs_of_neg (show (d.utc - now) / 86400 < 0 by linarith)]
            push_neg
            linarith)
        (not_lt.mpr hge) hlt,
      natAbs_ratCeil_of_neg _ _ (by linarith)]

/-- Witness for C1: 400 days in the past gives "1 year(s) ago" and 40 days in
the past gives "1 month(s) ago". -/
theorem C1_witness :
    format_duedate (fun _ => "") (fun _ => "") 0
        (some ⟨-34560000, some 0⟩) "relative" = "1 year(s) ago"
    ∧ format_duedate (fun _ => "") (fun _ => "") 0
        (some ⟨-3456000, some 0⟩) "relative" = "1 month(s) ago" := by
  constructor
  · have h : format_duedate (fun _ => "") (fun _ => "") 0
        (some ⟨-34560000, some 0⟩) "relative"
        = s!"{(ratFloor (ratAbs (((-34560000 : ℚ) - 0) / 86400) / 365)).natAbs} year(s) ago" :=
      (C1_amended_floor_magnitude (fun _ => "") (fun _ => "") 0
        ⟨-34560000, some 0⟩).1 (by norm_num)
    rw [show ratAbs (((-34560000 : ℚ) - 0) / 86400) = 400 from by
      rw [ratAbs_eq_abs]; norm_num] at h
    rw [show ratFloor ((400 : ℚ) / 365) = 1 from by
      rw [ratFloor_eq_floor]; norm_num [Int.floor_eq_iff]] at h
    exact h
  · have h : format_duedate (fun _ => "") (fun _ => "") 0
        (some ⟨-3456000, some 0⟩) "relative"
        = s!"{(ratFloor (ratAbs (((-3456000 : ℚ) - 0) / 86400) / 30)).natAbs} month(s) ago" :=
      (C1_amended_floor_magnitude (fun _ => "") (fun _ => "") 0
        ⟨-3456000, some 0⟩).2 (by norm_num) (by norm_num)
    rw [show ratAbs (((-3456000 : ℚ) - 0) / 86400) = 40 from by
      rw [ratAbs_eq_abs]; norm_num] at h
    rw [show ratFloor ((40 : ℚ) / 30) = 1 from by
      rw [ratFloor_eq_floor]; norm_num [Int.floor_eq_iff]] at h
    exact h

/-- Claim C2, counterexample: for an instant exactly equal to the current time
the `relative` style takes the `abs(days) < 1` hours branch and returns
"0hour(s) ago" (no space before "hour"), not "0 days ago" as claimed. -/
theorem C2_counterexample :
    format_duedate (fun _ => "") (fun _ => "") 0
        (some ⟨0, some 0⟩) "relative" = "0hour(s) ago"
    ∧ ("0hour(s) ago" : String) ≠ "0 days ago" := by
  refine ⟨?_, by decide⟩
  have key : relative_duedate ((0 : ℚ) - 0) = "0hour(s) ago" := by
    rw [show ((0 : ℚ) - 0) = 0 from by norm_num,
      relative_duedate_hours_ago 0 (by rw [ratAbs_eq_abs]; norm_num) (by norm_num)]
    rw [show ratAbs ((0 : ℚ) / 3600) = 0 from by rw [ratAbs_eq_abs]; norm_num]
    rfl
  exact key

/-- Claim C2 (amended): for an instant exactly equal to the current time, the
`relative` style returns "0hour(s) ago" (the `abs(days) < 1` hours branch,
whose f-string has no space between the number and "hour(s)". -/
theorem C2_amended_zero_hours (isoStr localStr : PyDatetime → String)
    (now : ℚ) (d : PyDatetime) (h : d.utc = now) :
    format_duedate isoStr localStr now (some d) "relative" = "0hour(s) ago" := by
  have h0 : d.utc - now = 0 := by rw [h, sub_self]
  rw [format_duedate_relative, h0,
    relative_duedate_hours_ago 0 (by rw [ratAbs_eq_abs]; norm_num) (by norm_num)]
  rw [show ratAbs ((0 : ℚ) / 3600) = 0 from by rw [ratAbs_eq_abs]; norm_num]
  rfl

/-- Witness for C2 at a concrete instant. -/
theorem C2_witness :
    format_duedate (fun _ => "") (fun _ => "") 5
        (some ⟨5, some 0⟩) "relative" = "0hour(s) ago" :=
  C2_amended_zero_hours (fun _ => "") (fun _ => "") 5 ⟨5, some 0⟩ rfl

/-- Claim C3, counterexample: an instant exactly one hour in the past renders
as "1hour(s) ago" — the f-string at line 120 has no space between the number
and "hour(s)", contradicting the claimed "{H} hour(s) ago" format. -/
theorem C3_counterexample :
    format_duedate (fun _ => "") (fun _ => "") 0
        (some ⟨-3600, some 0⟩) "relative" = "1hour(s) ago"
    ∧ ("1hour(s) ago" : String) ≠ "1 hour(s) ago" := by
  refine ⟨?_, by decide⟩
  have key : relative_duedate ((-3600 : ℚ) - 0) = "1hour(s) ago" := by
    rw [show ((-3600 : ℚ) - 0) = -3600 from by norm_num,
      relative_duedate_hours_ago (-3600)
        (by rw [ratAbs_eq_abs]; norm_num [abs_lt]) (by norm_num)]
    rw [show ratAbs ((-3600 : ℚ) / 3600) = 1 from by rw [ratAbs_eq_abs]; norm_num]
    rw [show pyInt (1 : ℚ) = 1 from by
      rw [pyInt_eq_floor_of_nonneg _ (by norm_num)]; norm_num]
    rfl
  exact key

/-- Claim C3 (amended): for an instant whose distance from now is under a day,
the `relative` style returns "in {H} hour(s)" when the difference is positive
and "{H}hour(s) ago" (with NO space between the number and "hour(s)") when it
is non-positive, `H` being the integer-truncated absolute hour count. -/
theorem C3_amended_hours (isoStr localStr : PyDatetime → String)
    (now : ℚ) (d : PyDatetime)
    (h : ratAbs ((d.utc - now) / 86400) < 1) :
    (0 < d.utc - now →
      format_duedate isoStr localStr now (some d) "relative"
        = s!"in {pyInt ((d.utc - now) / 3600)} hour(s)")
    ∧ (d.utc - now ≤ 0 →
      format_duedate isoStr localStr now (some d) "relative"
        = s!"{pyInt (ratAbs ((d.utc - now) / 3600))}hour(s) ago") := by
  constructor
  · intro hpos
    rw [format_duedate_relative]
    exact relative_duedate_in_hours _ h (div_pos hpos (by norm_num))
  · intro hnp
    rw [format_duedate_relative]
    refine relative_duedate_hours_ago _ h (not_lt.mpr ?_)
    exact div_nonpos_of_nonpos_of_nonneg hnp (by norm_num)

/-- Witness for C3: 12 hours in the future gives "in 12 hour(s)"; two hours in
the past gives "2hour(s) ago". -/
theorem C3_witness :
    format_duedate (fun _ => "") (fun _ => "") 0
        (some ⟨43200, some 0⟩) "relative" = "in 12 hour(s)"
    ∧ format_duedate (fun _ => "") (fun _ => "") 0
        (some ⟨-7200, some 0⟩) "relative" = "2hour(s) ago" := by
  constructor
  · have h : format_duedate (fun _ => "") (fun _ => "") 0
        (some ⟨43200, some 0⟩) "relative"
        = s!"in {pyInt (((43200 : ℚ) - 0) / 3600)} hour(s)" :=
      (C3_amended_hours (fun _ => "") (fun _ => "") 0 ⟨43200, some 0⟩
        (by rw [ratAbs_eq_abs]; norm_num [abs_lt])).1 (by norm_num)
    rw [show (((43200 : ℚ) - 0) / 3600) = 12 from by norm_num] at h
    rw [show pyInt (12 : ℚ) = 12 from by
      rw [pyInt_eq_floor_of_nonneg _ (by norm_num)]; norm_num [Int.floor_eq_iff]] at h
    exact h
  · have h : format_duedate (fun _ => "") (fun _ => "") 0
        (some ⟨-7200, some 0⟩) "relative"
        = s!"{pyInt (ratAbs (((-7200 : ℚ) - 0) / 3600))}hour(s) ago" :=
      (C3_amended_hours (fun _ => "") (fun _ => "") 0 ⟨-7200, some 0⟩
        (by rw [ratAbs_eq_abs]; norm_num [abs_lt])).2 (by norm_num)
    rw [show ratAbs (((-7200 : ℚ) - 0) / 3600) = 2 from by
      rw [ratAbs_eq_abs]; norm_num] at h
    rw [show pyInt (2 : ℚ) = 2 from by
      rw [pyInt_eq_floor_of_nonneg _ (by norm_num)]; norm_num [Int.floor_eq_iff]] at h
    exact h

/-! ## Raw API data model and the Normalizer (lines 37–99) -/

/-- A raw user object (`owner` / `assignedUsers` entries). -/
structure RawUser where
  displayname : Option String
  primaryKey : Option String
deriving DecidableEq, Repr

/-- A raw label object. -/
structure RawLabel where
  title : Option String
deriving DecidableEq, Repr

/-- A raw card object, with every field the code reads modelled as optional
(`.get` on a missing key yields `None` / the supplied default). -/
structure RawCard where
  id : Option Int
  title : Option String
  order : Option Int
  archived : Option Bool
  duedate : Option String
  owner : Option RawUser
  assignedUsers : Option (List RawUser)
  labels : Option (List RawLabel)
deriving DecidableEq, Repr

/-- A raw stack object. -/
structure RawStack where
  id : Option Int
  title : Option String
  order : Option Int
  cards : Option (List RawCard)
deriving DecidableEq, Repr

/-- Python truthiness of an optional string (`None` and `""` are falsy). -/
def strTruthy : Option String → Bool
  | none => false
  | some s => s ≠ ""

/-- Python `a or b` where `a` is an optional string and `b` a string. -/
def pyOrStr (a : Option String) (b : String) : String :=
  match a with
  | some s => if s = "" then b else s
  | none => b

/-- `fmt_user` (lines 57–60). -/
def fmt_user : Option RawUser → String
  | none => ""
  | some u => pyOrStr u.displayname (pyOrStr u.primaryKey (""))

/-- `parse_duedate` (lines 90–99).  `dateutil.parser.parse` is an external
collaborator, passed in as `parse`; `parse s = none` models the call raising
(caught by the `try/except`).  `if not raw` treats both `None` and `""` as
absent. -/
def parse_duedate (parse : String → Option PyDatetime) (raw : Option String) :
    Option PyDatetime :=
  match raw with
  | none => none
  | some s =>
    if s = "" then none
    else
      match parse s with
      | none => none
      | some dt =>
        if dt.tzinfo.isSome then some dt
        else some { dt with tzinfo := some 0 }

/-- A normalized card of the Grouped Model (lines 74–84). -/
structure Card where
  id : Option Int
  title : Option String
  order : Option Int
  archived : Bool
  duedate : Option PyDatetime
  owner : Option String
  assignees : List String
  labels : List String
deriving DecidableEq, Repr

/-- The stack header of a Grouped-Model block (lines 69–73). -/
structure StackInfo where
  id : Option Int
  title : Option String
  order : Option Int
deriving DecidableEq, Repr

/-- One block of the Grouped Model: a stack and its cards. -/
structure Block where
  stack : StackInfo
  cards : List Card
deriving DecidableEq, Repr

/-- The per-card dictionary built at lines 75–84. -/
def normalize_card (parse : String → Option PyDatetime) (c : RawCard) : Card :=
  { id := c.id
    title := c.title
    order := c.order
    archived := c.archived.getD false
    duedate := parse_duedate parse c.duedate
    owner := let o := fmt_user c.owner
             if o = "" then none else some o
    assignees := (c.assignedUsers.getD []).filterMap
      (fun u => if fmt_user (some u) = "" then none else some (fmt_user (some u)))
    labels := (c.labels.getD []).filterMap
      (fun lb => if strTruthy lb.title then some (lb.title.getD ("")) else none) }

/-- The sort key `x.get("order", 0)` used at lines 64 and 85. -/
def orderKey (o : Option Int) : Int := o.getD 0

/-- Python's `sorted(l, key=k)`: a stable sort by `k` ascending (CPython's
sort is documented stable; `List.mergeSort` is likewise stable). -/
def pySorted (key : α → Int) (l : List α) : List α :=
  l.mergeSort (fun a b => key a ≤ key b)

/-- The loop body of `build_grouped_model` for one stack (lines 65–87). -/
def normalize_stack (parse : String → Option PyDatetime)
    (include_archived : Bool) (s : RawStack) : Block :=
  let cards := s.cards.getD []
  let cards := if include_archived then cards
    else cards.filter (fun c => !(c.archived.getD false))
  { stack := { id := s.id, title := s.title, order := s.order }
    cards := (pySorted (fun c => orderKey c.order) cards).map (normalize_card parse) }

/-- `build_grouped_model` (lines 62–88). -/
def build_grouped_model (parse : String → Option PyDatetime)
    (stackList : List RawStack) (include_archived : Bool) : List Block :=
  (pySorted (fun s => orderKey s.order) stackList).map
    (normalize_stack parse include_archived)

theorem pySorted_pairwise (key : α → Int) (l : List α) :
    (pySorted key l).Pairwise (fun a b => key a ≤ key b) := by
  have h := @List.sorted_mergeSort _ (fun a b => decide (key a ≤ key b))
    (fun a b c hab hbc => by
      simp only [decide_eq_true_eq] at *
      omega)
    (fun a b => by
      simp only [Bool.or_eq_true, decide_eq_true_eq]
      omega) l
  exact h.imp (fun hab => of_decide_eq_true hab)

/-- Stability of Python's sort, in filter form: the elements satisfying `p`
(in particular, those sharing one value of the sort key) appear in the sorted
output exactly in their original relative order. -/
theorem pySorted_filter_eq (key : α → Int) (p : α → Bool) (l : List α)
    (hp : ∀ a b, p a = true → p b = true → key a ≤ key b) :
    (pySorted key l).filter p = l.filter p := by
  have hsub : (l.filter p).Sublist (pySorted key l) := by
    apply List.sublist_mergeSort
    · intro a b c hab hbc
      simp only [decide_eq_true_eq] at *
      omega
    · intro a b
      simp only [Bool.or_eq_true, decide_eq_true_eq]
      omega
    · refine List.pairwise_iff_forall_sublist.mpr ?_
      intro a b hab
      have ha : a ∈ l.filter p := hab.subset (by simp)
      have hb : b ∈ l.filter p := hab.subset (by simp)
      simp only [List.mem_filter] at ha hb
      exact decide_eq_true (hp a b ha.2 hb.2)
    · exact List.filter_sublist l
  have hperm : ((pySorted key l).filter p).Perm (l.filter p) :=
    (List.mergeSort_perm l _).filter p
  have hsub2 : (l.filter p).Sublist ((pySorted key l).filter p) := by
    have h2 := hsub.filter p
    rwa [List.filter_filter, show (fun a => p a && p a) = p from by
      funext a; exact Bool.and_self (p a)] at h2
  exact (hsub2.eq_of_length hperm.length_eq.symm).symm

theorem pySorted_mem (key : α → Int) (l : List α) (a : α) :
    a ∈ pySorted key l ↔ a ∈ l := List.mem_mergeSort

/-- Claim C5: in the Normalizer's output, stacks are ordered non-decreasingly
by their `order` key (missing treated as 0), cards within each stack likewise,
and — stability — the elements sharing any one ordering-key value keep exactly
the relative order they had in the raw input, for stacks and for cards. -/
theorem C5_sorted_and_stable (parse : String → Option PyDatetime)
    (stackList : List RawStack) (include_archived : Bool) :
    (build_grouped_model parse stackList include_archived).Pairwise
        (fun b1 b2 => orderKey b1.stack.order ≤ orderKey b2.stack.order)
    ∧ (∀ b ∈ build_grouped_model parse stackList include_archived,
        b.cards.Pairwise (fun c1 c2 => orderKey c1.order ≤ orderKey c2.order))
    ∧ (∀ k : Int,
        (build_grouped_model parse stackList include_archived).filter
            (fun b => orderKey b.stack.order == k)
          = (stackList.filter (fun s => orderKey s.order == k)).map
              (normalize_stack parse include_archived))
    ∧ (∀ s : RawStack, ∀ k : Int,
        (normalize_stack parse include_archived s).cards.filter
            (fun c => orderKey c.order == k)
          = ((if include_archived then s.cards.getD []
                else (s.cards.getD []).filter
                  (fun c => !(c.archived.getD false))).filter
                (fun c => orderKey c.order == k)).map (normalize_card parse)) := by
  refine ⟨?_, ?_, ?_, ?_⟩
  · exact List.pairwise_map.mpr
      (pySorted_pairwise (fun s => orderKey s.order) stackList)
  · intro b hb
    obtain ⟨s, _, rfl⟩ := List.mem_map.mp hb
    exact List.pairwise_map.mpr (pySorted_pairwise _ _)
  · intro k
    show ((pySorted (fun s => orderKey s.order) stackList).map
        (normalize_stack parse include_archived)).filter
          (fun b => orderKey b.stack.order == k) = _
    rw [List.filter_map]
    rw [show ((fun b => orderKey b.stack.order == k)
        ∘ normalize_stack parse include_archived)
      = (fun s => orderKey s.order == k) from rfl]
    rw [pySorted_filter_eq _ _ _ (fun a b ha hb => by
      have ha2 := of_decide_eq_true ha
      have hb2 := of_decide_eq_true hb
      omega)]
  · intro s k
    show ((pySorted (fun c => orderKey c.order)
        (if include_archived then s.cards.getD []
          else (s.cards.getD []).filter
            (fun c => !(c.archived.getD false)))).map
        (normalize_card parse)).filter (fun c => orderKey c.order == k) = _
    rw [List.filter_map]
    rw [show ((fun c => orderKey c.order == k) ∘ normalize_card parse)
      = (fun c => orderKey c.order == k) from rfl]
    rw [pySorted_filter_eq _ _ _ (fun a b ha hb => by
      have ha2 := of_decide_eq_true ha
      have hb2 := of_decide_eq_true hb
      omega)]

/-- Witness for C5: a stack with two order-tied cards keeps them sorted
(trivially) in input order. -/
theorem C5_witness :
    (normalize_stack (fun _ => none) false
        ⟨some 1, some ("S"), some 0,
          some [⟨some 1, some ("a"), some 1, none, none, none, none, none⟩,
                ⟨some 2, some ("b"), some 1, none, none, none, none, none⟩]⟩).cards.Pairwise
      (fun c1 c2 => orderKey c1.order ≤ orderKey c2.order) := by
  refine (C5_sorted_and_stable (fun _ => none)
      [⟨some 1, some ("S"), some 0,
        some [⟨some 1, some ("a"), some 1, none, none, none, none, none⟩,
              ⟨some 2, some ("b"), some 1, none, none, none, none, none⟩]⟩] false).2.1
    _ ?_
  simp [build_grouped_model, pySorted]

/-- Claim C6: with `include_archived = false` no card of the Grouped Model is
archived; with `include_archived = true` every archived raw card appears in
the model (as its normalization) with its archived flag set. -/
theorem C6_archived_filter (parse : String → Option PyDatetime)
    (stackList : List RawStack) :
    (∀ b ∈ build_grouped_model parse stackList false,
      ∀ c ∈ b.cards, c.archived = false)
    ∧ (∀ s ∈ stackList, ∀ rc ∈ s.cards.getD [],
        rc.archived.getD false = true →
        ∃ b ∈ build_grouped_model parse stackList true,
          normalize_card parse rc ∈ b.cards
          ∧ (normalize_card parse rc).archived = true) := by
  constructor
  · intro b hb c hc
    obtain ⟨s, _, rfl⟩ := List.mem_map.mp hb
    simp only [normalize_stack] at hc
    obtain ⟨rc, hrc, rfl⟩ := List.mem_map.mp hc
    rw [pySorted_mem] at hrc
    simp only [Bool.false_eq_true, if_false, List.mem_filter,
      Bool.not_eq_eq_eq_not, Bool.not_true] at hrc
    show rc.archived.getD false = false
    exact hrc.2
  · intro s hs rc hrc harch
    refine ⟨normalize_stack parse true s, ?_, ?_, ?_⟩
    · exact List.mem_map_of_mem _ ((pySorted_mem _ _ _).mpr hs)
    · show normalize_card parse rc ∈
        ((pySorted (fun c => orderKey c.order)
          (if (true : Bool) then s.cards.getD []
            else (s.cards.getD []).filter
              (fun c => !(c.archived.getD false)))).map (normalize_card parse))
      apply List.mem_map_of_mem
      rw [pySorted_mem]
      simpa using hrc
    · show rc.archived.getD false = true
      exact harch

/-- Witness for C6: a single archived card survives with its flag set when
`include_archived` is true. -/
theorem C6_witness :
    ∃ b ∈ build_grouped_model (fun _ => none)
        [⟨some 1, some ("S"), some 0,
          some [⟨some 7, some ("c"), some 0, some true, none, none, none, none⟩]⟩]
        true,
      normalize_card (fun _ => none)
          ⟨some 7, some ("c"), some 0, some true, none, none, none, none⟩ ∈ b.cards
      ∧ (normalize_card (fun _ => none)
          ⟨some 7, some ("c"), some 0, some true, none, none, none, none⟩).archived
        = true := by
  refine (C6_archived_filter (fun _ => none)
      [⟨some 1, some ("S"), some 0,
        some [⟨some 7, some ("c"), some 0, some true, none, none, none, none⟩]⟩]).2
    ⟨some 1, some ("S"), some 0,
      some [⟨some 7, some ("c"), some 0, some true, none, none, none, none⟩]⟩
    (by simp)
    ⟨some 7, some ("c"), some 0, some true, none, none, none, none⟩
    (by simp) rfl

/-- Claim C8: the Date Parser returns `none` on absent input or parse failure
(no error propagates), assumes UTC when the parsed value is naive, and every
non-absent result is timezone-aware.  The hypothesis records that `dateutil`
fails on the empty string (`if not raw` also treats `""` as absent). -/
theorem C8_parse_duedate_total (parse : String → Option PyDatetime)
    (hempty : parse ("") = none) :
    parse_duedate parse none = none
    ∧ (∀ s, parse s = none → parse_duedate parse (some s) = none)
    ∧ (∀ s dt, parse s = some dt → dt.tzinfo = none →
        parse_duedate parse (some s) = some { dt with tzinfo := some 0 })
    ∧ (∀ s dt, parse s = some dt → dt.tzinfo ≠ none →
        parse_duedate parse (some s) = some dt)
    ∧ (∀ raw dt, parse_duedate parse raw = some dt → dt.tzinfo.isSome = true) := by
  refine ⟨rfl, ?_, ?_, ?_, ?_⟩
  · intro s hs
    by_cases he : s = ""
    · simp [parse_duedate, he]
    · simp [parse_duedate, if_neg he, hs]
  · intro s dt hs htz
    have he : s ≠ "" := fun h => by rw [h, hempty] at hs; cases hs
    simp [parse_duedate, if_neg he, hs, htz]
  · intro s dt hs htz
    have he : s ≠ "" := fun h => by rw [h, hempty] at hs; cases hs
    simp [parse_duedate, if_neg he, hs, Option.isSome_iff_ne_none.mpr htz]
  · intro raw dt h
    match raw with
    | none => cases h
    | some s =>
      by_cases he : s = ""
      · rw [show parse_duedate parse (some s) = none from by
          simp [parse_duedate, he]] at h
        cases h
      · simp only [parse_duedate, if_neg he] at h
        cases hps : parse s with
        | none => rw [hps] at h; simp at h
        | some dt2 =>
          simp only [hps] at h
          by_cases ht : dt2.tzinfo.isSome
          · rw [if_pos ht] at h
            cases h
            exact ht
          · rw [if_neg ht] at h
            cases h
            rfl

/-- Witness for C8: a parser recognizing one date string, returned naive and
stamped with UTC. -/
theorem C8_witness :
    parse_duedate
        (fun s => if s = "2020-01-01" then some ⟨1577836800, none⟩ else none)
        (some ("2020-01-01"))
      = some ⟨1577836800, some 0⟩ :=
  (C8_parse_duedate_total
      (fun s => if s = "2020-01-01" then some ⟨1577836800, none⟩ else none)
      rfl).2.2.1 ("2020-01-01") ⟨1577836800, none⟩ rfl rfl

/-! ## The pre-flight configuration check of `main` (lines 269–312) -/

/-- Outcome of a run of `main` up to the fetch. -/
inductive MainResult where
  | exit (code : Nat) (message : String)
  | output (stackList : List RawStack)
deriving DecidableEq, Repr

/-- The resolved settings of `main` (flags with environment fallbacks; the
board id defaults to the integer 0 when unset, line 274). -/
structure Args where
  url : String
  username : String
  password : String
  board_id : Int
deriving DecidableEq, Repr

/-- `missing` (lines 293–298): names of required settings whose value is
Python-falsy (empty string, zero integer), in the source's fixed order. -/
def missing_fields (a : Args) : List String :=
  [("base URL", a.url != ""), ("username", a.username != ""),
   ("app password", a.password != ""),
   ("board id", a.board_id != 0)].filterMap
    (fun p => if p.2 then none else some p.1)

/-- `main` from the pre-flight check through the fetch (lines 292–312).
`fetch` stands for the network call `fetch_stacks` (`.error` models a raised
`requests.RequestException`); it is examined only when nothing is missing, so
the exit with code 2 happens before any network activity. -/
def run_main (a : Args) (fetch : Except String (List RawStack)) : MainResult :=
  if !(missing_fields a).isEmpty then
    .exit 2 ("Missing: " ++ String.intercalate (", ") (missing_fields a))
  else
    match fetch with
    | .error e =>
      .exit 1 ("Error fetching stacks for board " ++ toString a.board_id
        ++ ": " ++ e)
    | .ok sl => .output sl

/-- Claim C7: with all four required settings missing, the program exits with
code 2 — whatever the network would have returned — and the message enumerates
exactly base URL, username, app password, board id, in that order. -/
theorem C7_all_missing_exit2 (a : Args) (fetch : Except String (List RawStack))
    (h1 : a.url = "") (h2 : a.username = "") (h3 : a.password = "")
    (h4 : a.board_id = 0) :
    run_main a fetch
      = .exit 2 ("Missing: base URL, username, app password, board id") := by
  obtain ⟨u, n, p, b⟩ := a
  have h1b : u = "" := h1
  have h2b : n = "" := h2
  have h3b : p = "" := h3
  have h4b : b = 0 := h4
  subst h1b h2b h3b h4b
  rfl

/-- Witness for C7 at the all-empty configuration. -/
theorem C7_witness :
    run_main ⟨"", "", "", 0⟩ (Except.ok [])
      = .exit 2 ("Missing: base URL, username, app password, board id") :=
  C7_all_missing_exit2 ⟨"", "", "", 0⟩ (Except.ok []) rfl rfl rfl rfl

/-- Claim C10: a zero board id (explicit or defaulted) is treated as missing
required configuration: "board id" appears among the missing fields and the
program exits with code 2 before any network activity. -/
theorem C10_board_zero_missing (a : Args) (fetch : Except String (List RawStack))
    (h : a.board_id = 0) :
    "board id" ∈ missing_fields a
    ∧ run_main a fetch
      = .exit 2 ("Missing: " ++ String.intercalate (", ") (missing_fields a)) := by
  have hb : "board id" ∈ missing_fields a := by
    unfold missing_fields
    refine List.mem_filterMap.mpr ⟨("board id", a.board_id != 0), by simp, ?_⟩
    simp [h]
  refine ⟨hb, ?_⟩
  have hne : (missing_fields a).isEmpty = false := by
    cases hM : (missing_fields a).isEmpty
    · rfl
    · rw [List.isEmpty_iff] at hM
      rw [hM] at hb
      cases hb
  unfold run_main
  rw [hne]
  rfl

/-- Witness for C10: board id 0 with every other setting present. -/
theorem C10_witness :
    "board id" ∈ missing_fields ⟨"https://cloud.example.com", "u", "pw", 0⟩
    ∧ run_main ⟨"https://cloud.example.com", "u", "pw", 0⟩ (Except.ok [])
        = .exit 2 ("Missing: board id") := by
  have h := C10_board_zero_missing ⟨"https://cloud.example.com", "u", "pw", 0⟩
    (Except.ok []) rfl
  exact ⟨h.1, h.2⟩

/-! ## `pango_escape` and the markup round trip (lines 202–203) -/

/-- `html.escape(text, quote=True)` (used by `pango_escape`, line 203) at the
level of one character.  CPython's implementation runs `str.replace`
successively for `&`, `<`, `>`, `"`, `'`; the targets are distinct single
characters and no earlier replacement's output contains a later target, so the
composite acts independently on each input character. -/
def escapeChar (c : Char) : List Char :=
  if c = '&' then ("&amp;").toList
  else if c = '<' then ("&lt;").toList
  else if c = '>' then ("&gt;").toList
  else if c = Char.ofNat 34 then ("&quot;").toList
  else if c = Char.ofNat 39 then ("&#x27;").toList
  else [c]

/-- `pango_escape` (lines 202–203). -/
def pango_escape (text : String) : String :=
  String.mk (text.toList.flatMap escapeChar)

/-- Modelled from the spec: the markup consumer's entity decoding ("re-parsing
the markup yields the original literal title text").  The decoder itself
(Pango's parser / `html.unescape`) is not part of the repository; it maps each
of the five entities emitted by `html.escape` back to its character and leaves
every other character alone. -/
def unescapeChars (l : List Char) : List Char :=
  match l with
  | [] => []
  | c :: rest =>
    if c = '&' then
      if (("amp;").toList).isPrefixOf rest then '&' :: unescapeChars (rest.drop 4)
      else if (("lt;").toList).isPrefixOf rest then '<' :: unescapeChars (rest.drop 3)
      else if (("gt;").toList).isPrefixOf rest then '>' :: unescapeChars (rest.drop 3)
      else if (("quot;").toList).isPrefixOf rest then
        Char.ofNat 34 :: unescapeChars (rest.drop 5)
      else if (("#x27;").toList).isPrefixOf rest then
        Char.ofNat 39 :: unescapeChars (rest.drop 5)
      else c :: unescapeChars rest
    else c :: unescapeChars rest
termination_by l.length
decreasing_by all_goals (simp only [List.length_drop, List.length_cons]; omega)

/-- Modelled from the spec: string-level entity decoding. -/
def pango_unescape (s : String) : String :=
  String.mk (unescapeChars s.toList)

theorem unescapeChars_cons (c : Char) (l : List Char) (h : c ≠ '&') :
    unescapeChars (c :: l) = c :: unescapeChars l := by
  rw [unescapeChars, if_neg h]

theorem unescape_amp (L : List Char) :
    unescapeChars ('&' :: 'a' :: 'm' :: 'p' :: ';' :: L) = '&' :: unescapeChars L := by
  rw [unescapeChars]
  simp [List.isPrefixOf]

theorem unescape_lt (L : List Char) :
    unescapeChars ('&' :: 'l' :: 't' :: ';' :: L) = '<' :: unescapeChars L := by
  rw [unescapeChars]
  simp [List.isPrefixOf]

theorem unescape_gt (L : List Char) :
    unescapeChars ('&' :: 'g' :: 't' :: ';' :: L) = '>' :: unescapeChars L := by
  rw [unescapeChars]
  simp [List.isPrefixOf]

theorem unescape_quot (L : List Char) :
    unescapeChars ('&' :: 'q' :: 'u' :: 'o' :: 't' :: ';' :: L)
      = Char.ofNat 34 :: unescapeChars L := by
  rw [unescapeChars]
  simp [List.isPrefixOf]

theorem unescape_apos (L : List Char) :
    unescapeChars ('&' :: '#' :: 'x' :: '2' :: '7' :: ';' :: L)
      = Char.ofNat 39 :: unescapeChars L := by
  rw [unescapeChars]
  simp [List.isPrefixOf]

theorem unescapeChars_flatMap_escapeChar (l : List Char) :
    unescapeChars (l.flatMap escapeChar) = l := by
  induction l with
  | nil => simp [unescapeChars]
  | cons c rest ih =>
    rw [List.flatMap_cons]
    by_cases h1 : c = '&'
    · subst h1
      show unescapeChars
        ('&' :: 'a' :: 'm' :: 'p' :: ';' :: rest.flatMap escapeChar) = _
      rw [unescape_amp, ih]
    by_cases h2 : c = '<'
    · subst h2
      show unescapeChars
        ('&' :: 'l' :: 't' :: ';' :: rest.flatMap escapeChar) = _
      rw [unescape_lt, ih]
    by_cases h3 : c = '>'
    · subst h3
      show unescapeChars
        ('&' :: 'g' :: 't' :: ';' :: rest.flatMap escapeChar) = _
      rw [unescape_gt, ih]
    by_cases h4 : c = Char.ofNat 34
    · subst h4
      show unescapeChars
        ('&' :: 'q' :: 'u' :: 'o' :: 't' :: ';' :: rest.flatMap escapeChar) = _
      rw [unescape_quot, ih]
    by_cases h5 : c = Char.ofNat 39
    · subst h5
      show unescapeChars
        ('&' :: '#' :: 'x' :: '2' :: '7' :: ';' :: rest.flatMap escapeChar) = _
      rw [unescape_apos, ih]
    · rw [show escapeChar c = [c] from by
        simp [escapeChar, h1, h2, h3, h4, h5]]
      rw [List.singleton_append, unescapeChars_cons c _ h1, ih]

/-- Claim C9: unescaping after `pango_escape` is the identity on every title
string, in particular on titles containing `<` or `&` — re-parsing the emitted
markup text yields the original literal title. -/
theorem C9_escape_roundtrip (t : String) :
    pango_unescape (pango_escape t) = t := by
  unfold pango_escape pango_unescape
  rw [show (String.mk (t.toList.flatMap escapeChar)).toList
    = t.toList.flatMap escapeChar from rfl]
  rw [unescapeChars_flatMap_escapeChar]
  obtain ⟨data⟩ := t
  rfl

/-! ## The output renderers (lines 137–265).  A renderer returning `Option`
models Python raising: `none` is an uncaught exception. -/

namespace Ansi

/-- The escape sequences of class `Ansi` (lines 139–147). -/
def RESET : String := "\x1b[0m"

def BOLD : String := "\x1b[1m"

def DIM : String := "\x1b[2m"

def BLUE : String := "\x1b[34m"

def MAGENTA : String := "\x1b[35m"

def YELLOW : String := "\x1b[33m"

def CYAN : String := "\x1b[36m"

def GRAY : String := "\x1b[90m"

end Ansi

/-- Python's f-string rendering of an optional integer: `None` prints as
`"None"` (relevant to the `f"List {st.get('id')}"` fallbacks). -/
def pyStrOptInt : Option Int → String
  | none => "None"
  | some n => toString n

/-- `.lstrip("\n")`: drop every leading newline (lines 172 and 265). -/
def pyLstripNewline (s : String) : String :=
  String.mk (s.toList.dropWhile (fun c => c = '\n'))

/-- `colorize_output` (lines 149–172). -/
def colorize_output (isoStr localStr : PyDatetime → String) (now : ℚ)
    (grouped : List Block) (show_owner : Bool) (datefmt : String) : String :=
  let lines := grouped.flatMap (fun block =>
    let st := block.stack
    let header := "\n" ++ Ansi.BOLD ++ Ansi.BLUE ++ "🗂️ "
      ++ pyOrStr st.title ("List " ++ pyStrOptInt st.id) ++ Ansi.RESET
    if block.cards.isEmpty then
      [header, Ansi.DIM ++ "(no cards)" ++ Ansi.RESET]
    else
      header :: block.cards.map (fun c =>
        let line := "- " ++ Ansi.BOLD ++ "📝 "
          ++ pyOrStr c.title ("(untitled)") ++ Ansi.RESET
        let line := if c.labels ≠ [] then
            line ++ "  " ++ Ansi.MAGENTA ++ "🏷️ "
              ++ String.intercalate (", ") c.labels ++ Ansi.RESET
          else line
        let line := if show_owner && strTruthy c.owner then
            line ++ "  " ++ Ansi.CYAN ++ "👤 " ++ c.owner.getD ("") ++ Ansi.RESET
          else line
        let line := if c.assignees ≠ [] then
            line ++ "  " ++ Ansi.CYAN ++ "👥 "
              ++ String.intercalate (", ") c.assignees ++ Ansi.RESET
          else line
        let line := if c.duedate.isSome then
            line ++ "  " ++ Ansi.YELLOW ++ "📅 "
              ++ format_duedate isoStr localStr now c.duedate datefmt ++ Ansi.RESET
          else line
        let line := if c.archived then
            line ++ "  " ++ Ansi.DIM ++ "📦 archived" ++ Ansi.RESET
          else line
        line))
  pyLstripNewline (String.intercalate ("\n") lines)

/-- `markdown_output` (lines 174–200). -/
def markdown_output (isoStr localStr : PyDatetime → String) (now : ℚ)
    (grouped : List Block) (show_owner : Bool) (datefmt : String) : String :=
  let lines := grouped.flatMap (fun block =>
    let st := block.stack
    let header := "## " ++ pyOrStr st.title ("List " ++ pyStrOptInt st.id)
    if block.cards.isEmpty then [header, "_(no cards)_"]
    else
      (header :: block.cards.map (fun c =>
        let line := "- **" ++ pyOrStr c.title ("(untitled)") ++ "**"
        let meta :=
          (if c.labels ≠ [] then
            ["labels: " ++ String.intercalate (", ") c.labels] else [])
          ++ (if show_owner && strTruthy c.owner then
            ["owner: " ++ c.owner.getD ("")] else [])
          ++ (if c.assignees ≠ [] then
            ["assignees: " ++ String.intercalate (", ") c.assignees] else [])
          ++ (if c.duedate.isSome then
            ["due: " ++ format_duedate isoStr localStr now c.duedate datefmt]
            else [])
          ++ (if c.archived then ["archived"] else [])
        if meta.isEmpty then line
        else line ++ " — _" ++ String.intercalate ("; ") meta ++ "_")) ++ [""])
  (String.intercalate ("\n") lines).trim

/-- `plain_output` (lines 240–265). -/
def plain_output (isoStr localStr : PyDatetime → String) (now : ℚ)
    (grouped : List Block) (show_owner : Bool) (datefmt : String) : String :=
  let lines := grouped.flatMap (fun block =>
    let st := block.stack
    let header := "\n=== " ++ pyOrStr st.title ("List " ++ pyStrOptInt st.id)
      ++ " ==="
    if block.cards.isEmpty then [header, "(no cards)"]
    else
      header :: block.cards.map (fun c =>
        let line := "- " ++ pyOrStr c.title ("(untitled)")
        let bits :=
          (if c.labels ≠ [] then
            ["labels: " ++ String.intercalate (", ") c.labels] else [])
          ++ (if show_owner && strTruthy c.owner then
            ["owner: " ++ c.owner.getD ("")] else [])
          ++ (if c.assignees ≠ [] then
            ["assignees: " ++ String.intercalate (", ") c.assignees] else [])
          ++ (if c.duedate.isSome then
            ["due: " ++ format_duedate isoStr localStr now c.duedate datefmt]
            else [])
          ++ (if c.archived then ["archived"] else [])
        if bits.isEmpty then line
        else line ++ "  [" ++ String.intercalate ("; ") bits ++ "]"))
  pyLstripNewline (String.intercalate ("\n") lines)

/-- `pango_output` (lines 205–238).  The result is `none` exactly when the
Python code raises: line 217 evaluates `st.get("title").lower()` for every
card, an `AttributeError` when the stack has no title — even though line 209
deliberately falls back to `f"List {st.get('id')}"` for the header in that
same situation. -/
def pango_output (isoStr localStr : PyDatetime → String) (now : ℚ)
    (grouped : List Block) (show_owner : Bool) (datefmt : String) :
    Option String := do
  let blockLines ← grouped.mapM (fun block => do
    let st := block.stack
    let title := pango_escape (pyOrStr st.title ("List " ++ pyStrOptInt st.id))
    let header := "<b><u>" ++ title ++ "</u></b>"
    if block.cards.isEmpty then
      pure [header, "<span foreground=\x27#6e7781\x27>(no cards)</span>"]
    else do
      let cardLines ← block.cards.mapM (fun c => do
        let t := pango_escape (pyOrStr c.title ("(untitled)"))
        let stTitle ← st.title
        let low := stTitle.toLower
        let line :=
          if low = "todo" || low = "to do" then "✔️  " ++ t
          else if low = "done" then
            "✅ <span foreground=\x27#888888\x27>" ++ t ++ "</span>"
          else "📝 " ++ t
        let meta :=
          (if c.labels ≠ [] then
            ["<span foreground=\x27#a371f7\x27>🏷️ "
              ++ pango_escape (String.intercalate (", ") c.labels) ++ "</span>"]
            else [])
          ++ (if show_owner && strTruthy c.owner then
            ["<span foreground=\x27#58a6ff\x27>👤 "
              ++ pango_escape (c.owner.getD ("")) ++ "</span>"] else [])
          ++ (if c.assignees ≠ [] then
            ["<span foreground=\x27#58a6ff\x27>👥 "
              ++ pango_escape (String.intercalate (", ") c.assignees) ++ "</span>"]
            else [])
          ++ (if c.duedate.isSome then
            ["<span foreground=\x27#d29922\x27>📅 "
              ++ pango_escape (format_duedate isoStr localStr now c.duedate datefmt)
              ++ "</span>"] else [])
          ++ (if c.archived then
            ["<span foreground=\x27#6e7781\x27>📦 archived</span>"] else [])
        pure (if meta.isEmpty then line
          else line ++ "  " ++ String.intercalate ("  ") meta))
      pure (header :: cardLines ++ [" "]))
  pure (String.intercalate ("\n") blockLines.flatten)

/-- Claim C4 fails on the code: on a Grouped Model whose stack has no title
but does have a card, the markup renderer raises `AttributeError`
(`st.get("title").lower()` on `None`, line 217) instead of returning a
string; the plain renderer handles the very same model fine. -/
theorem C4_pango_raises_on_untitled_stack :
    pango_output (fun _ => "") (fun _ => "") 0
        [{ stack := { id := some 1, title := none, order := some 0 },
           cards := [{ id := some 2, title := some ("t"), order := some 0,
                       archived := false, duedate := none, owner := none,
                       assignees := [], labels := [] }] }] false "iso" = none
    ∧ plain_output (fun _ => "") (fun _ => "") 0
        [{ stack := { id := some 1, title := none, order := some 0 },
           cards := [{ id := some 2, title := some ("t"), order := some 0,
                       archived := false, duedate := none, owner := none,
                       assignees := [], labels := [] }] }] false "iso"
      = "=== List 1 ===\n- t" := by
  constructor
  · rfl
  · rfl
